import Mathlib

/-!
Verification development for the Facebook-Marketplace recommendation-ranking
service, a shallow embedding of the two source files:

  src/image_processor.py  (process_image, process_image_as_pil)
  src/app/api.py          (FeatureExtractor, BertNeuralNetwork, startup
                           model/index loading, predict_image, predict_text,
                           predict_combined)

Modelling conventions.

* Tensor values are exact rationals: every numeric claim checked here is
  structural (shapes, concatenation, ordering), not about rounding, so `ℚ`
  stands for the float values.  The float64→float32 cast `astype('float32')`
  in predict_combined is value-preserving on numbers that started life as
  float32 model outputs, so it is modelled as the identity on values.
* A PIL image is its size, channel count and a pixel function.  `PILToTensor`
  produces an integer (uint8) tensor; tensors therefore come in an integer
  flavour (`Tensor4I`) and a float flavour (`Tensor4Q`), and the `.float()`
  call in `FeatureExtractor.forward` is the cast between them.
* Model weights, the BERT encoder + tokenizer, and the resnet50 backbone are
  opaque loaded artifacts: they are carried as abstract functions together
  with the output-width facts fixed by the architectures used in the source
  (resnet50 is 1000-way; bert-base pooler output is 768-wide; the text head
  is Linear(768, 1000)).
* `torch.nn.Module` semantics made explicit where the source relies on them:
  a module is created with `training = True` and api.py never calls
  `eval()`/`train(False)`, so both modules stay in training mode.  In
  training mode `nn.Dropout(p)` multiplies each component by `1/(1-p)` or
  zeroes it according to a freshly sampled Bernoulli mask (the mask is an
  explicit `ℕ → Bool` argument here), and the BatchNorm layers inside
  resnet50 update their running-statistics buffers on every forward pass;
  that in-place buffer update is modelled by explicit state passing of the
  `num_batches_tracked` counter, which BatchNorm increments unconditionally
  on each training-mode forward.  A tensor produced while gradient tracking
  is enabled carries a computation graph; `torch.no_grad()` suppresses it.
  The result of the model call is therefore a `TensorM` with a `grad` flag,
  set by `forward` (grad mode on) and cleared by `predict` (`torch.no_grad`)
  and by `.detach()`.
* JSON bodies are a small `Json` inductive, because one claim is about the
  nesting structure (`.tolist()` on a (1, 1000) array) of the `features`
  field, and predict_combined parses its sub-responses back out of JSON.
-/

/-- The decoder pickle: an opaque mapping artifact (label index → category).
Its content never matters; it is only stored or discarded. -/
abbrev DecoderDict : Type := List (ℕ × String)

/-- A PIL image: width, height, number of channels (3 = RGB), and the pixel
value at (channel, row, column), each value in 0..255. -/
structure PILImage where
  width : ℕ
  height : ℕ
  channels : ℕ
  pixel : ℕ → ℕ → ℕ → ℕ

/-- Modelled from the spec: `resize_image` is imported by
src/image_processor.py from `clean_images`, which is not under src/.
Spec §4.1: scale factor = target_size / max(width, height); resize
preserving aspect ratio so the longer side equals target_size (Python's
`int(x * ratio)` truncates, i.e. floor); create a blank square black canvas
of (target_size, target_size) — an RGB canvas, since the output of the
preprocessor is 3-channel for every input mode; paste the resized image
centred at ((target_size - new_width)/2, (target_size - new_height)/2).
The spec fixes no interpolation rule for the resampling, so plain
nearest-neighbour sampling is used; no claim depends on pixel values. -/
def resize_image (final_size : ℕ) (im : PILImage) : PILImage :=
  let m := max im.width im.height
  let newW := im.width * final_size / m
  let newH := im.height * final_size / m
  let offX := (final_size - newW) / 2
  let offY := (final_size - newH) / 2
  { width := final_size
    height := final_size
    channels := 3
    pixel := fun c y x =>
      if offX ≤ x ∧ x < offX + newW ∧ offY ≤ y ∧ y < offY + newH ∧ c < 3 then
        im.pixel c ((y - offY) * im.height / newH) ((x - offX) * im.width / newW)
      else 0 }

/-- A 3-dimensional integer tensor (channels, height, width), as produced by
`transforms.PILToTensor()`: uint8 pixel values, channel-first layout. -/
structure Tensor3I where
  c : ℕ
  h : ℕ
  w : ℕ
  data : ℕ → ℕ → ℕ → ℤ

/-- A 4-dimensional integer tensor (batch, channels, height, width). -/
structure Tensor4I where
  n : ℕ
  c : ℕ
  h : ℕ
  w : ℕ
  data : ℕ → ℕ → ℕ → ℕ → ℤ

/-- A 4-dimensional float tensor. -/
structure Tensor4Q where
  n : ℕ
  c : ℕ
  h : ℕ
  w : ℕ
  data : ℕ → ℕ → ℕ → ℕ → ℚ

/-- `transforms.PILToTensor()`: channel-first integer tensor of the image,
shape (C, H, W), no scaling. -/
def pilToTensor (im : PILImage) : Tensor3I :=
  ⟨im.channels, im.height, im.width, fun c y x => (im.pixel c y x : ℤ)⟩

/-- `.unsqueeze(0)`: add a leading batch dimension of size 1. -/
def Tensor3I.unsqueeze0 (t : Tensor3I) : Tensor4I :=
  ⟨1, t.c, t.h, t.w, fun _ c y x => t.data c y x⟩

/-- `.float()`: cast an integer tensor to a float tensor. -/
def Tensor4I.float (t : Tensor4I) : Tensor4Q :=
  ⟨t.n, t.c, t.h, t.w, fun b c y x => (t.data b c y x : ℚ)⟩

/-- src/image_processor.py, `process_image_as_pil`: resize the PIL image to a
square canvas (default 224), convert with `PILToTensor` and `unsqueeze(0)`.
The result is the integer (uint8) tensor — no float conversion here. -/
def process_image_as_pil (image : PILImage) (image_size : ℕ := 224) : Tensor4I :=
  (pilToTensor (resize_image image_size image)).unsqueeze0

/-- The value of a model call: the output matrix (list of batch rows) plus
whether a computation graph is attached (`requires_grad`/grad-fn). -/
structure TensorM where
  rows : List (List ℚ)
  grad : Bool

/-- The loaded resnet50 backbone together with its weights
(`Model_Parameters/image_model.pt` is an opaque artifact): in training mode a
BatchNorm layer normalises with the statistics of the current batch, so for a
batch-size-1 input the output row is a function of that item alone; `run`
is that per-item input→logits map.  resnet50 is a 1000-way classifier, hence
the output-width fact. -/
structure ResnetBackbone where
  run : (ℕ → ℕ → ℕ → ℚ) → List ℚ
  run_len : ∀ f, (run f).length = 1000

/-- src/app/api.py, class FeatureExtractor.  Fields beyond the source's
`decoder` attribute record the nn.Module state the source manipulates
implicitly: `training` (True at construction, never changed by api.py) and
`numBatchesTracked`, the BatchNorm `num_batches_tracked` buffer that every
training-mode forward pass increments in place. -/
structure FeatureExtractor where
  itemBackbone : (ℕ → ℕ → ℕ → ℚ) → List ℚ
  itemBackbone_len : ∀ f, (itemBackbone f).length = 1000
  decoder : Option DecoderDict
  training : Bool
  numBatchesTracked : ℕ

/-- `FeatureExtractor(decoder)` followed by `load_state_dict(...)` as run at
startup in api.py: the decoder is stored, the backbone weights and buffers
(including the persisted `num_batches_tracked` value `nbt`) come from the
artifact, and the module is in its default training mode — api.py never
calls `eval()`. -/
def mkFeatureExtractor (decoder : DecoderDict) (backbone : ResnetBackbone)
    (nbt : ℕ) : FeatureExtractor :=
  { itemBackbone := backbone.run
    itemBackbone_len := backbone.run_len
    decoder := some decoder
    training := true
    numBatchesTracked := nbt }

/-- FeatureExtractor.forward (the method `model(image_tensor)` dispatches
to): `X = image.float(); X = self.layers(X); return X`.  Gradient tracking
is on (no `torch.no_grad`), and a training-mode forward updates the
BatchNorm buffers, returned here as the second component. -/
def FeatureExtractor.forward (m : FeatureExtractor) (image : Tensor4I) :
    TensorM × FeatureExtractor :=
  let X := image.float
  let rows := (List.range X.n).map (fun b => m.itemBackbone (fun c y x => X.data b c y x))
  (⟨rows, true⟩,
   if m.training then { m with numBatchesTracked := m.numBatchesTracked + 1 } else m)

/-- FeatureExtractor.predict: `with torch.no_grad(): x = self.layers(image)`.
No gradient graph is retained (grad flag false).  Note the source's predict
does not call `.float()`, so its argument is a float tensor; `torch.no_grad`
does not stop training-mode BatchNorm buffer updates. -/
def FeatureExtractor.predict (m : FeatureExtractor) (image : Tensor4Q) :
    TensorM × FeatureExtractor :=
  (⟨(List.range image.n).map (fun b => m.itemBackbone (fun c y x => image.data b c y x)), false⟩,
   if m.training then { m with numBatchesTracked := m.numBatchesTracked + 1 } else m)

/-- The frozen BERT encoder plus the fixed cased tokenizer, an opaque loaded
artifact: a map from the raw text to the `pooler_output` row, which for
bert-base is 768-wide. -/
structure BertEncoder where
  pooled : String → List ℚ
  pooled_len : ∀ s, (pooled s).length = 768

/-- The `torch.nn.Linear(768, 1000)` head with its loaded weights: 1000
weight rows and a 1000-wide bias. -/
structure LinearLayer where
  weight : List (List ℚ)
  bias : List ℚ
  weight_len : weight.length = 1000
  bias_len : bias.length = 1000

/-- src/app/api.py, class BertNeuralNetwork: the frozen bert encoder and the
`Sequential(Dropout(p=0.3), Linear(768, 1000))` head.  The constructor's
`decoder` argument is accepted and discarded — the source never assigns it
to an attribute.  `training` is the nn.Module flag (True at construction,
never changed by api.py). -/
structure BertNeuralNetwork where
  bert : BertEncoder
  linear : LinearLayer
  training : Bool

/-- `BertNeuralNetwork(decoder)` followed by `load_state_dict(...)` as run at
startup in api.py.  The decoder argument is unused by the source
constructor.  Default training mode; api.py never calls `eval()`. -/
def mkBertNeuralNetwork (_decoder : DecoderDict) (bert : BertEncoder)
    (lin : LinearLayer) : BertNeuralNetwork :=
  { bert := bert, linear := lin, training := true }

/-- Dot product of two rows. -/
def dot (u v : List ℚ) : ℚ := (List.zipWith (fun a b => a * b) u v).sum

/-- `torch.nn.Linear`: `y = W x + b`, one output component per weight row. -/
def LinearLayer.apply (L : LinearLayer) (v : List ℚ) : List ℚ :=
  List.zipWith (fun row b => dot row v + b) L.weight L.bias

/-- `torch.nn.Dropout(p)` in training mode: component i is kept and rescaled
by `1/(1-p)` when the sampled Bernoulli mask keeps it, else zeroed.  The
per-call random mask is the explicit `mask` argument. -/
def applyDropout (p : ℚ) (mask : ℕ → Bool) (v : List ℚ) : List ℚ :=
  List.zipWith (fun i x => if mask i then x / (1 - p) else 0) (List.range v.length) v

/-- BertNeuralNetwork.forward (the method `model(input_dictionary)`
dispatches to): bert pooler output, then the Dropout+Linear head.  In
training mode — which api.py leaves on — the dropout is live and consumes
the sampled mask. -/
def BertNeuralNetwork.forward (m : BertNeuralNetwork) (mask : ℕ → Bool)
    (text : String) : List ℚ :=
  let pooled := m.bert.pooled text
  let dropped := if m.training then applyDropout (3/10) mask pooled else pooled
  m.linear.apply dropped

/-- JSON values, enough for the bodies this API builds and re-parses. -/
inductive Json where
  | null
  | num (q : ℚ)
  | str (s : String)
  | arr (items : List Json)
  | obj (fields : List (String × Json))

/-- `.tolist()` of a 1-dimensional row, JSON-encoded. -/
def vecToJson (v : List ℚ) : Json := .arr (v.map .num)

/-- `.tolist()` of a 2-dimensional array, JSON-encoded: a list of rows. -/
def matrixToJson (m : List (List ℚ)) : Json := .arr (m.map vecToJson)

/-- `.tolist()` of a 2-dimensional integer index array, JSON-encoded. -/
def natMatrixToJson (m : List (List ℕ)) : Json :=
  .arr (m.map (fun r => .arr (r.map (fun i => .num (i : ℚ)))))

/-- Python `json.loads(body)[key]`: look a key up in a JSON object. -/
def Json.getObj (j : Json) (key : String) : Json :=
  match j with
  | .obj fields => (((fields.find? (fun kv => kv.1 == key)).map (fun kv => kv.2)).getD .null)
  | _ => .null

/-- Read a JSON number back (the dynamic `np.array(...)` re-parse). -/
def jsonNum : Json → ℚ
  | .num q => q
  | _ => 0

/-- Read a JSON row back. -/
def jsonToVec : Json → List ℚ
  | .arr l => l.map jsonNum
  | _ => []

/-- Read a JSON matrix back (`np.array(response['features'])`). -/
def jsonToMatrix : Json → List (List ℚ)
  | .arr l => l.map jsonToVec
  | _ => []

/-- The per-item inference the image endpoint performs: the line
`feature_embeddings = image_feature_extraction_model(image_tensor)` of
api.py, i.e. an `nn.Module.__call__`, which dispatches to `forward` — not to
the no-grad `predict` method. -/
def imageInference (model : FeatureExtractor) (image : PILImage) :
    TensorM × FeatureExtractor :=
  model.forward (process_image_as_pil image)

/-- src/app/api.py, handler `predict_image` for
POST /predict/feature_embedding/image: preprocess the upload, run the model
(its `__call__`, hence `forward`), move to cpu, `.detach()` (drop the grad
graph), `.numpy().tolist()` the (1, 1000) output — which yields a nested
singleton list of one 1000-row — and wrap it in `{"features": ...}`.  The
second component is the image model after the request (the in-place
BatchNorm buffer update made explicit). -/
def predict_image (model : FeatureExtractor) (image : PILImage) :
    Json × FeatureExtractor :=
  let inferred := imageInference model image
  let detached : TensorM := { inferred.1 with grad := false }
  (Json.obj [("features", matrixToJson detached.rows)], inferred.2)

/-- src/app/api.py, handler `predict_text` for
POST /predict/feature_embedding/text: tokenize (folded into the opaque
encoder), run the model's `__call__` = `forward` on the batch-1 input, and
`.tolist()` the (1, 1000) output into a nested singleton list wrapped in
`{"features": ...}`.  `mask` is the dropout mask sampled for this call. -/
def predict_text (model : BertNeuralNetwork) (mask : ℕ → Bool)
    (text : String) : Json :=
  Json.obj [("features", matrixToJson [model.forward mask text])]

/-- Squared L2 distance between two vectors. -/
def l2sq (u v : List ℚ) : ℚ :=
  (List.zipWith (fun a b => (a - b) * (a - b)) u v).sum

/-- Order on (index, distance) pairs: by distance. -/
def distLE (a b : ℕ × ℚ) : Prop := a.2 ≤ b.2

instance distLE_decidable : DecidableRel distLE :=
  fun a b => inferInstanceAs (Decidable (a.2 ≤ b.2))

instance distLE_total : IsTotal (ℕ × ℚ) distLE := ⟨fun a b => le_total a.2 b.2⟩

instance distLE_trans : IsTrans (ℕ × ℚ) distLE := ⟨fun _ _ _ h1 h2 => le_trans h1 h2⟩

/-- Each stored entry of the index paired with its squared distance to the
query: entry i of the database at distance `l2sq q (db entry i)`. -/
def indexedDists (db : List (List ℚ)) (q : List ℚ) : List (ℕ × ℚ) :=
  (List.range db.length).map (fun i => (i, l2sq q (db.getD i [])))

/-- Modelled from the spec: the FAISS similarity index is an opaque pre-built
artifact (`Pickle_Files/faiss_pickle`); neither its construction nor the
library's search code is under src/.  Spec §4.4: the index holds stored
entries and `search` returns, for each query, the k nearest stored entries'
indices ordered by increasing distance (nearest first).  Modelled as exact
nearest-neighbour search: sort the (index, distance) pairs by distance
(stably, so ties keep the lower index first) and keep the first k. -/
def searchPairs (db : List (List ℚ)) (q : List ℚ) (k : ℕ) : List (ℕ × ℚ) :=
  (List.insertionSort distLE (indexedDists db q)).take k

/-- The index rows faiss returns for one query: the k nearest, nearest
first. -/
def searchTopK (db : List (List ℚ)) (q : List ℚ) (k : ℕ) : List ℕ :=
  (searchPairs db q k).map Prod.fst

/-- `index.search(queries, k)[1]`: one row of k nearest-entry indices per
query row. -/
def indexSearch (db : List (List ℚ)) (qs : List (List ℚ)) (k : ℕ) :
    List (List ℕ) :=
  qs.map (fun q => searchTopK db q k)

/-- The `embeddings` value predict_combined builds: re-parse the
`features` matrices out of the two sub-responses
(`json.loads(response.body)['features']`, `np.array`) and concatenate them
row-wise (`np.concatenate(..., axis=1)`); the `astype('float32')` cast is
value-preserving here (see the header note). -/
def combinedQuery (imageModel : FeatureExtractor) (textModel : BertNeuralNetwork)
    (mask : ℕ → Bool) (image : PILImage) (text : String) : List (List ℚ) :=
  let image_embeddings := jsonToMatrix ((predict_image imageModel image).1.getObj "features")
  let text_embeddings := jsonToMatrix ((predict_text textModel mask text).getObj "features")
  List.zipWith (fun r s => r ++ s) image_embeddings text_embeddings

/-- src/app/api.py, handler `predict_combined` for
POST /predict/similar_images: invoke `predict_image` and `predict_text` as
sub-calls, rebuild their embedding matrices from the JSON bodies,
concatenate along axis 1, query the index with `index.search(embeddings, 3)`
and return the `[1]` component (the indices) as `{"similar_index": ...}`.
The returned state is the image model after its sub-call (the text model
holds no buffers that a forward pass updates). -/
def predict_combined (imageModel : FeatureExtractor) (textModel : BertNeuralNetwork)
    (db : List (List ℚ)) (mask : ℕ → Bool) (image : PILImage) (text : String) :
    Json × FeatureExtractor :=
  let embeddings := combinedQuery imageModel textModel mask image text
  let nearest_vectors := indexSearch db embeddings 3
  (Json.obj [("similar_index", natMatrixToJson nearest_vectors)],
   (predict_image imageModel image).2)

/-- The process-wide state the module-level startup code of api.py builds:
the two models and the loaded faiss index. -/
structure ServerState where
  image_feature_extraction_model : FeatureExtractor
  text_feature_extraction_model : BertNeuralNetwork
  index : List (List ℚ)

/-- The module-level startup of api.py.  Each `Option` argument is the
outcome of loading one persisted artifact (`none` = the pickle/torch.load or
`load_state_dict` step raised).  The first try/except covers the decoder
pickle, the image-model parameters (backbone weights, buffers and the
persisted `num_batches_tracked` value) and the text-model parameters, and
turns any failure into `OSError("No Feature Extraction model found. ...")`;
the second covers the faiss pickle and raises
`OSError("No Image model found. ...")`.  A raised error aborts the process:
no `ServerState` — and hence no endpoint — exists in that case. -/
def startup (decoderLoad : Option DecoderDict)
    (imageParamsLoad : Option (ResnetBackbone × ℕ))
    (textParamsLoad : Option (BertEncoder × LinearLayer))
    (indexLoad : Option (List (List ℚ))) : Except String ServerState :=
  match decoderLoad, imageParamsLoad, textParamsLoad with
  | some decoder, some ip, some tp =>
    match indexLoad with
    | some ix =>
      .ok { image_feature_extraction_model := mkFeatureExtractor decoder ip.1 ip.2
            text_feature_extraction_model := mkBertNeuralNetwork decoder tp.1 tp.2
            index := ix }
    | none =>
      .error "No Image model found. Check that you have the encoder and the model in the correct location."
  | _, _, _ =>
    .error "No Feature Extraction model found. Check that you have the decoder and the model in the correct location."

/-- The single batch row of the image model's output for one request. -/
def imageRow (m : FeatureExtractor) (image : PILImage) : List ℚ :=
  m.itemBackbone (fun c y x => (process_image_as_pil image).float.data 0 c y x)

/-- The single batch row of the text model's output for one request. -/
def textRow (m : BertNeuralNetwork) (mask : ℕ → Bool) (text : String) : List ℚ :=
  m.forward mask text

lemma imageInference_rows (m : FeatureExtractor) (image : PILImage) :
    (imageInference m image).1.rows = [imageRow m image] := rfl

lemma predict_image_json (m : FeatureExtractor) (image : PILImage) :
    (predict_image m image).1 = Json.obj [("features", matrixToJson [imageRow m image])] := rfl

lemma predict_text_json (m : BertNeuralNetwork) (mask : ℕ → Bool) (text : String) :
    predict_text m mask text = Json.obj [("features", matrixToJson [textRow m mask text])] := rfl

lemma getObj_singleton (key : String) (v : Json) :
    (Json.obj [(key, v)]).getObj key = v := by
  simp [Json.getObj, List.find?]

lemma jsonToVec_vecToJson (v : List ℚ) : jsonToVec (vecToJson v) = v := by
  simp only [jsonToVec, vecToJson, List.map_map]
  have : (jsonNum ∘ Json.num) = id := by
    funext q
    simp [jsonNum, Function.comp]
  simp [this]

lemma jsonToMatrix_matrixToJson (m : List (List ℚ)) :
    jsonToMatrix (matrixToJson m) = m := by
  simp only [jsonToMatrix, matrixToJson, List.map_map]
  have : (jsonToVec ∘ vecToJson) = id := by
    funext v
    simp [Function.comp, jsonToVec_vecToJson]
  simp [this]

lemma imageRow_len (m : FeatureExtractor) (image : PILImage) :
    (imageRow m image).length = 1000 :=
  m.itemBackbone_len _

lemma textRow_len (m : BertNeuralNetwork) (mask : ℕ → Bool) (text : String) :
    (textRow m mask text).length = 1000 := by
  simp [textRow, BertNeuralNetwork.forward, LinearLayer.apply, List.length_zipWith,
    m.linear.weight_len, m.linear.bias_len]

lemma combinedQuery_eq (imageModel : FeatureExtractor) (textModel : BertNeuralNetwork)
    (mask : ℕ → Bool) (image : PILImage) (text : String) :
    combinedQuery imageModel textModel mask image text
      = [imageRow imageModel image ++ textRow textModel mask text] := by
  have h1 : jsonToMatrix ((predict_image imageModel image).1.getObj "features")
      = [imageRow imageModel image] := by
    rw [predict_image_json, getObj_singleton, jsonToMatrix_matrixToJson]
  have h2 : jsonToMatrix ((predict_text textModel mask text).getObj "features")
      = [textRow textModel mask text] := by
    rw [predict_text_json, getObj_singleton, jsonToMatrix_matrixToJson]
  simp [combinedQuery, h1, h2]

/-- Claim C5: for every input image, of any resolution and aspect ratio, the
image preprocessor `process_image_as_pil` returns a tensor of shape
(1, 3, size, size) for an explicit target size, and of shape
(1, 3, 224, 224) with the default size 224: the canvas is always a square
3-channel image of the target size and `unsqueeze(0)` adds the batch-1
dimension. -/
theorem process_image_as_pil_shape (image : PILImage) (image_size : ℕ) :
    (process_image_as_pil image image_size).n = 1 ∧
    (process_image_as_pil image image_size).c = 3 ∧
    (process_image_as_pil image image_size).h = image_size ∧
    (process_image_as_pil image image_size).w = image_size ∧
    (process_image_as_pil image).n = 1 ∧
    (process_image_as_pil image).c = 3 ∧
    (process_image_as_pil image).h = 224 ∧
    (process_image_as_pil image).w = 224 :=
  ⟨rfl, rfl, rfl, rfl, rfl, rfl, rfl, rfl⟩

/-- Claim C10: `FeatureExtractor.forward` first casts its input tensor to
float and then applies the backbone — for every input tensor `t`,
`forward t` is the backbone applied to the float cast of `t` — and the image
endpoint hands `forward` the integer-valued tensor produced by
`PILToTensor`+`unsqueeze(0)` without converting it, so non-float tensors are
accepted at the public image-embedding interface (the cast happens inside
`forward`). -/
theorem forward_casts_input_to_float (m : FeatureExtractor) (t : Tensor4I) (image : PILImage) :
    (m.forward t).1.rows
      = (List.range t.n).map (fun b => m.itemBackbone (fun c y x => ((t.data b c y x : ℚ)))) ∧
    imageInference m image = m.forward (process_image_as_pil image) :=
  ⟨rfl, rfl⟩

/-- Claim C9: the decoder artifact passed to both extractor constructors does
not influence the inference path: for any two decoder values, the image
endpoint's response and the text endpoint's response are identical (the
image model stores the decoder unused; the text model's constructor discards
it entirely). -/
theorem decoder_not_used_in_inference (d1 d2 : DecoderDict) (b : ResnetBackbone) (nbt : ℕ)
    (be : BertEncoder) (lin : LinearLayer) (mask : ℕ → Bool) (image : PILImage) (text : String) :
    (predict_image (mkFeatureExtractor d1 b nbt) image).1
      = (predict_image (mkFeatureExtractor d2 b nbt) image).1 ∧
    predict_text (mkBertNeuralNetwork d1 be lin) mask text
      = predict_text (mkBertNeuralNetwork d2 be lin) mask text :=
  ⟨rfl, rfl⟩

/-- Claim C8 is false on the code: the image model as constructed at startup
is left in training mode (api.py never calls `eval()`), so handling one
image request increments the BatchNorm `num_batches_tracked` buffer in
place — the image model after the request differs from the artifact loaded
at startup.  The loaded artifacts are not read-only under request
handling. -/
theorem predict_image_mutates_image_model (d : DecoderDict) (b : ResnetBackbone) (nbt : ℕ)
    (image : PILImage) :
    (predict_image (mkFeatureExtractor d b nbt) image).2.numBatchesTracked = nbt + 1 ∧
    (predict_image (mkFeatureExtractor d b nbt) image).2 ≠ mkFeatureExtractor d b nbt := by
  refine ⟨rfl, fun h => ?_⟩
  have h2 : nbt + 1 = nbt := congrArg FeatureExtractor.numBatchesTracked h
  omega

/-- Claim C4 is false on the code: the image endpoint's inference step is
`image_feature_extraction_model(image_tensor)`, i.e. `nn.Module.__call__`,
which dispatches to `forward` — the gradient-tracking path (the computation
graph is only dropped afterwards by `.detach()`).  The no-grad `predict`
method, whose output carries no graph, is never invoked by the handler. -/
theorem image_endpoint_grad_mode :
    (∀ (m : FeatureExtractor) (image : PILImage), (imageInference m image).1.grad = true) ∧
    (∀ (m : FeatureExtractor) (t : Tensor4Q), (m.predict t).1.grad = false) :=
  ⟨fun _ _ => rfl, fun _ _ => rfl⟩

/-- Claim C7: startup succeeds — and hence the endpoints exist at all, since
they are functions of the `ServerState` — exactly when all four artifact
loads succeed; if any of the decoder, either model's weights, or the
similarity index fails to load, the module-level code raises and the process
fails to start, with no partial-availability mode. -/
theorem startup_fails_iff_artifact_load_fails (decoderLoad : Option DecoderDict)
    (imageParamsLoad : Option (ResnetBackbone × ℕ))
    (textParamsLoad : Option (BertEncoder × LinearLayer))
    (indexLoad : Option (List (List ℚ))) :
    ((∃ s, startup decoderLoad imageParamsLoad textParamsLoad indexLoad = Except.ok s) ↔
      (decoderLoad.isSome = true ∧ imageParamsLoad.isSome = true ∧
       textParamsLoad.isSome = true ∧ indexLoad.isSome = true)) ∧
    ((decoderLoad.isSome = false ∨ imageParamsLoad.isSome = false ∨
      textParamsLoad.isSome = false ∨ indexLoad.isSome = false) →
      ∃ msg, startup decoderLoad imageParamsLoad textParamsLoad indexLoad = Except.error msg) := by
  cases decoderLoad <;> cases imageParamsLoad <;> cases textParamsLoad <;> cases indexLoad <;>
    simp [startup]

/-- Claim C1: for every image and text accepted by POST
/predict/similar_images (with the per-call dropout draw of the text model
made explicit as `mask`), the query matrix submitted to the index is exactly
the row-wise concatenation of the image sub-response's embedding and the
text sub-response's embedding: one row of length 2000 whose first 1000
components are the embedding the image-only endpoint computes for that image
and whose last 1000 components are the embedding the text-only endpoint
computes for that text. -/
theorem predict_combined_query_is_concat (imageModel : FeatureExtractor)
    (textModel : BertNeuralNetwork) (mask : ℕ → Bool) (image : PILImage) (text : String) :
    ∃ imgRow txtRow,
      jsonToMatrix ((predict_image imageModel image).1.getObj "features") = [imgRow] ∧
      jsonToMatrix ((predict_text textModel mask text).getObj "features") = [txtRow] ∧
      combinedQuery imageModel textModel mask image text = [imgRow ++ txtRow] ∧
      (imgRow ++ txtRow).length = 2000 ∧
      (imgRow ++ txtRow).take 1000 = imgRow ∧
      (imgRow ++ txtRow).drop 1000 = txtRow := by
  refine ⟨imageRow imageModel image, textRow textModel mask text, ?_, ?_,
    combinedQuery_eq imageModel textModel mask image text, ?_, ?_, ?_⟩
  · rw [predict_image_json, getObj_singleton, jsonToMatrix_matrixToJson]
  · rw [predict_text_json, getObj_singleton, jsonToMatrix_matrixToJson]
  · simp [imageRow_len, textRow_len]
  · exact List.take_left' (imageRow_len imageModel image)
  · exact List.drop_left' (imageRow_len imageModel image)

/-- A concrete backbone for closed instances: constant zero logits. -/
def cBackbone : ResnetBackbone :=
  ⟨fun _ => List.replicate 1000 0, fun _ => List.length_replicate 1000 0⟩

/-- A concrete image model built the way startup builds it. -/
def cImageModel : FeatureExtractor := mkFeatureExtractor [] cBackbone 0

/-- A concrete bert encoder for closed instances: constant zero pooled
output. -/
def cBert : BertEncoder :=
  ⟨fun _ => List.replicate 768 0, fun _ => List.length_replicate 768 0⟩

/-- A concrete linear head for closed instances: zero weights and bias. -/
def cLin : LinearLayer :=
  ⟨List.replicate 1000 (List.replicate 768 0), List.replicate 1000 0,
   List.length_replicate 1000 (List.replicate 768 0), List.length_replicate 1000 0⟩

/-- A concrete text model built the way startup builds it. -/
def cTextModel : BertNeuralNetwork := mkBertNeuralNetwork [] cBert cLin

/-- A concrete 2-by-2 black RGB image. -/
def cImage : PILImage := ⟨2, 2, 3, fun _ _ _ => 0⟩

/-- A concrete dropout mask draw: drop everything. -/
def cMask : ℕ → Bool := fun _ => false

/-- A concrete loaded index holding three all-zero 2000-wide entries. -/
def cDb : List (List ℚ) := List.replicate 3 (List.replicate 2000 0)

/-- The concrete combined query row for the concrete models and inputs. -/
def cQ : List ℚ := imageRow cImageModel cImage ++ textRow cTextModel cMask "a"

/-- Tests whether a JSON value is a flat array of exactly n numbers. -/
def isFlatNumArr (j : Json) (n : ℕ) : Bool :=
  match j with
  | .arr items =>
      items.length == n && items.all (fun e => match e with | .num _ => true | _ => false)
  | _ => false

/-- Claim C2 is false as stated: at a concrete model and request, the
`features` value returned by the image endpoint and by the text endpoint is
not a flat list of 1000 numbers — `.tolist()` on the (1, 1000) output keeps
the batch dimension, so the value is a singleton list holding one row. -/
theorem predict_features_not_flat_counterexample :
    isFlatNumArr ((predict_image cImageModel cImage).1.getObj "features") 1000 = false ∧
    isFlatNumArr ((predict_text cTextModel cMask "a").getObj "features") 1000 = false :=
  ⟨rfl, rfl⟩

/-- Claim C2 amended: for every successful request, each embedding endpoint
returns a body whose `features` value is the JSON encoding of a nested
singleton list — exactly one row, and that row holds exactly 1000
numbers. -/
theorem predict_features_single_batch_row (imageModel : FeatureExtractor)
    (textModel : BertNeuralNetwork) (mask : ℕ → Bool) (image : PILImage) (text : String) :
    ∃ r1 r2,
      (predict_image imageModel image).1.getObj "features" = matrixToJson [r1] ∧
      r1.length = 1000 ∧
      (predict_text textModel mask text).getObj "features" = matrixToJson [r2] ∧
      r2.length = 1000 := by
  refine ⟨imageRow imageModel image, textRow textModel mask text, ?_,
    imageRow_len imageModel image, ?_, textRow_len textModel mask text⟩
  · rw [predict_image_json, getObj_singleton]
  · rw [predict_text_json, getObj_singleton]

/-- A bert encoder whose pooled output has a 1 in component 0. -/
def dBert : BertEncoder :=
  ⟨fun _ => 1 :: List.replicate 767 0,
   fun _ => by rw [List.length_cons, List.length_replicate]⟩

/-- A linear head whose first output reads component 0 of its input. -/
def dLin : LinearLayer :=
  ⟨(1 :: List.replicate 767 0) :: List.replicate 999 (List.replicate 768 0),
   List.replicate 1000 0,
   by rw [List.length_cons, List.length_replicate],
   List.length_replicate 1000 0⟩

/-- The first component of a response's `features` row. -/
def featuresHead (j : Json) : ℚ :=
  ((jsonToMatrix (j.getObj "features")).headD []).headD 0

lemma dot_cons (a b : ℚ) (u v : List ℚ) : dot (a :: u) (b :: v) = a * b + dot u v := by
  simp [dot]

lemma dot_zeros_left : ∀ (n : ℕ) (v : List ℚ), dot (List.replicate n 0) v = 0 := by
  intro n
  induction n with
  | zero => intro v; simp [dot]
  | succ k ih =>
    intro v
    cases v with
    | nil => simp [dot]
    | cons b w => rw [List.replicate_succ, dot_cons, ih w]; ring

lemma zipWith_ignore_left {α β γ : Type _} (f : β → γ) :
    ∀ (l : List α) (v : List β), List.zipWith (fun _ x => f x) l v = (v.take l.length).map f := by
  intro l
  induction l with
  | nil => intro v; simp
  | cons a t ih =>
    intro v
    cases v with
    | nil => simp
    | cons b w => simp [ih]

lemma applyDropout_keepAll (p : ℚ) (v : List ℚ) :
    applyDropout p (fun _ => true) v = v.map (fun x => x / (1 - p)) := by
  unfold applyDropout
  rw [show (fun (i : ℕ) (x : ℚ) => if (fun (_ : ℕ) => true) i then x / (1 - p) else 0)
        = (fun _ x => x / (1 - p)) from by funext i x; simp]
  rw [zipWith_ignore_left, List.length_range, List.take_length]

lemma applyDropout_dropAll (p : ℚ) (v : List ℚ) :
    applyDropout p (fun _ => false) v = v.map (fun _ => 0) := by
  unfold applyDropout
  rw [show (fun (i : ℕ) (x : ℚ) => if (fun (_ : ℕ) => false) i then x / (1 - p) else 0)
        = (fun (_ : ℕ) (_ : ℚ) => (0 : ℚ)) from by funext i x; simp]
  rw [zipWith_ignore_left, List.length_range, List.take_length]

lemma LinearLayer_apply_headD (L : LinearLayer) (w0 : List ℚ) (W : List (List ℚ))
    (b0 : ℚ) (B : List ℚ) (v : List ℚ) (hw : L.weight = w0 :: W) (hb : L.bias = b0 :: B) :
    (L.apply v).headD 0 = dot w0 v + b0 := by
  simp [LinearLayer.apply, hw, hb]

/-- Claim C3 is false on the code: the text model as constructed at startup
is left in training mode (api.py never calls `eval()`), so the
`nn.Dropout(p=0.3)` layer of the head is live at request time and the
endpoint's output depends on the Bernoulli mask sampled for the call — there
are loaded weights, a text, and two mask draws for which the two evaluations
of the text endpoint on the same text differ. -/
theorem predict_text_depends_on_dropout_mask :
    ∃ (decoder : DecoderDict) (bert : BertEncoder) (lin : LinearLayer)
      (m1 m2 : ℕ → Bool) (text : String),
      predict_text (mkBertNeuralNetwork decoder bert lin) m1 text ≠
      predict_text (mkBertNeuralNetwork decoder bert lin) m2 text := by
  refine ⟨[], dBert, dLin, (fun _ => true), (fun _ => false), "a", fun h => ?_⟩
  have h2 := congrArg featuresHead h
  have e1 : featuresHead (predict_text (mkBertNeuralNetwork [] dBert dLin) (fun _ => true) "a")
      = 10/7 := by
    unfold featuresHead
    rw [predict_text_json, getObj_singleton, jsonToMatrix_matrixToJson, List.headD_cons]
    rw [show textRow (mkBertNeuralNetwork [] dBert dLin) (fun _ => true) "a"
          = dLin.apply (applyDropout (3/10) (fun _ => true) (1 :: List.replicate 767 0)) from rfl]
    rw [applyDropout_keepAll]
    rw [LinearLayer_apply_headD dLin (1 :: List.replicate 767 0)
      (List.replicate 999 (List.replicate 768 0)) 0 (List.replicate 999 0) _ rfl rfl]
    rw [List.map_cons, List.map_replicate, dot_cons, dot_zeros_left]
    norm_num
  have e2 : featuresHead (predict_text (mkBertNeuralNetwork [] dBert dLin) (fun _ => false) "a")
      = 0 := by
    unfold featuresHead
    rw [predict_text_json, getObj_singleton, jsonToMatrix_matrixToJson, List.headD_cons]
    rw [show textRow (mkBertNeuralNetwork [] dBert dLin) (fun _ => false) "a"
          = dLin.apply (applyDropout (3/10) (fun _ => false) (1 :: List.replicate 767 0)) from rfl]
    rw [applyDropout_dropAll]
    rw [LinearLayer_apply_headD dLin (1 :: List.replicate 767 0)
      (List.replicate 999 (List.replicate 768 0)) 0 (List.replicate 999 0) _ rfl rfl]
    rw [List.map_cons, List.map_replicate, dot_cons, dot_zeros_left]
    norm_num
  rw [e1, e2] at h2
  norm_num at h2

/-- Claim C6: for every request (with `q` the single combined query row the
handler builds), POST /predict/similar_images queries the index with exactly
k = 3 and returns `{"similar_index": [[i1, i2, i3]]}`: a single row — one
query vector per call — of three entry indices, whose distances to the query
are the stored entries' distances listed in nondecreasing order (nearest
first), provided the index holds at least three entries. -/
theorem predict_combined_three_nearest_sorted (imageModel : FeatureExtractor)
    (textModel : BertNeuralNetwork) (db : List (List ℚ)) (mask : ℕ → Bool)
    (image : PILImage) (text : String) (q : List ℚ)
    (hq : q = imageRow imageModel image ++ textRow textModel mask text)
    (h3 : 3 ≤ db.length) :
    (predict_combined imageModel textModel db mask image text).1
      = Json.obj [("similar_index", natMatrixToJson [searchTopK db q 3])] ∧
    (searchTopK db q 3).length = 3 ∧
    List.Sorted (fun a b => a ≤ b) ((searchPairs db q 3).map Prod.snd) ∧
    (∀ p ∈ searchPairs db q 3, p.2 = l2sq q (db.getD p.1 [])) := by
  subst hq
  refine ⟨?_, ?_, ?_, ?_⟩
  · simp [predict_combined, combinedQuery_eq, indexSearch]
  · simp only [searchTopK, searchPairs, List.length_map, List.length_take,
      List.length_insertionSort, indexedDists, List.length_range]
    omega
  · have hs : List.Sorted distLE
        (List.insertionSort distLE
          (indexedDists db (imageRow imageModel image ++ textRow textModel mask text))) :=
      List.sorted_insertionSort distLE _
    have hs2 : List.Sorted distLE
        (searchPairs db (imageRow imageModel image ++ textRow textModel mask text) 3) :=
      List.Pairwise.sublist (List.take_sublist _ _) hs
    exact List.pairwise_map.mpr hs2
  · intro p hp
    have hmem := List.mem_of_mem_take hp
    rw [List.mem_insertionSort] at hmem
    simp only [indexedDists, List.mem_map, List.mem_range] at hmem
    obtain ⟨i, -, rfl⟩ := hmem
    rfl

/-- Concrete instantiation of the combined-search theorem: the hypotheses
hold for the concrete models, image, text and a three-entry index, and the
conclusion follows by applying the theorem there. -/
theorem predict_combined_three_nearest_sorted_witness :
    (cQ = imageRow cImageModel cImage ++ textRow cTextModel cMask "a") ∧
    3 ≤ cDb.length ∧
    ((predict_combined cImageModel cTextModel cDb cMask cImage "a").1
        = Json.obj [("similar_index", natMatrixToJson [searchTopK cDb cQ 3])] ∧
      (searchTopK cDb cQ 3).length = 3 ∧
      List.Sorted (fun a b => a ≤ b) ((searchPairs cDb cQ 3).map Prod.snd) ∧
      (∀ p ∈ searchPairs cDb cQ 3, p.2 = l2sq cQ (cDb.getD p.1 []))) :=
  ⟨rfl, le_of_eq (List.length_replicate 3 (List.replicate 2000 0)).symm,
   predict_combined_three_nearest_sorted cImageModel cTextModel cDb cMask cImage "a" cQ rfl
     (le_of_eq (List.length_replicate 3 (List.replicate 2000 0)).symm)⟩
